import Mathlib

/-!
Verification of the MCPControl desktop-automation core (mouse validation,
window resolution, window focus/resize/reposition, screenshot pipeline,
tool dispatch) against its natural-language specification.

The TypeScript sources are embedded shallowly: every native-library call
that may throw is an oracle field of a backend structure (`none` or
`.error` models a thrown exception), and each public operation is a total
Lean function returning the uniform result envelope, mirroring the
try/catch structure of the source.
-/

namespace MCPControl

/-! ### String helpers (model of JavaScript String.includes and toLowerCase) -/

/-- Model of checking that `needle` occurs at the start of `hay`
(character-wise equality), as used by substring search. -/
def startsWithSeq : List Char → List Char → Bool
  | _, [] => true
  | [], _ :: _ => false
  | a :: as, b :: bs => a == b && startsWithSeq as bs

/-- Model of JavaScript `hay.includes(needle)`: `needle` occurs
contiguously somewhere in `hay`. -/
def containsSeq : List Char → List Char → Bool
  | [], needle => needle.isEmpty
  | a :: rest, needle => startsWithSeq (a :: rest) needle || containsSeq rest needle

/-- `s` contains `t` as a contiguous substring (JavaScript `s.includes(t)`). -/
def strContains (s t : String) : Bool :=
  containsSeq s.toList t.toList

/-- Model of JavaScript `s.toLowerCase()` as character-wise lowering. -/
def jsToLower (s : String) : List Char :=
  s.toList.map Char.toLower

theorem startsWithSeq_refl (l : List Char) : startsWithSeq l l = true := by
  induction l with
  | nil => rfl
  | cons a as ih => simp [startsWithSeq, ih]

theorem containsSeq_refl (l : List Char) : containsSeq l l = true := by
  cases l with
  | nil => rfl
  | cons a as => simp [containsSeq, startsWithSeq_refl]

theorem startsWithSeq_map (f : Char → Char) (h n : List Char)
    (hs : startsWithSeq h n = true) : startsWithSeq (h.map f) (n.map f) = true := by
  induction n generalizing h with
  | nil => cases h <;> rfl
  | cons b bs ih =>
    cases h with
    | nil => simp [startsWithSeq] at hs
    | cons a as =>
      simp only [startsWithSeq, Bool.and_eq_true, beq_iff_eq] at hs
      simp only [List.map_cons, startsWithSeq, Bool.and_eq_true, beq_iff_eq]
      exact ⟨by rw [hs.1], ih as hs.2⟩

theorem containsSeq_map (f : Char → Char) (h n : List Char)
    (hc : containsSeq h n = true) : containsSeq (h.map f) (n.map f) = true := by
  induction h with
  | nil =>
    simp only [containsSeq, List.isEmpty_iff] at hc
    subst hc
    rfl
  | cons a rest ih =>
    simp only [containsSeq, Bool.or_eq_true] at hc
    rcases hc with hc | hc
    · simp only [List.map_cons, containsSeq, Bool.or_eq_true]
      exact Or.inl (startsWithSeq_map f (a :: rest) n hc)
    · simp only [List.map_cons, containsSeq, Bool.or_eq_true]
      exact Or.inr (ih hc)

theorem containsSeq_append_self (pre e : List Char) :
    containsSeq (pre ++ e) e = true := by
  induction pre with
  | nil => simpa using containsSeq_refl e
  | cons c cs ih =>
    cases e with
    | nil => simp [containsSeq, startsWithSeq]
    | cons x xs => simp [containsSeq, ih]

/-! ### Base64 (model of Buffer.toString with base64 encoding) -/

/-- The base64 alphabet. -/
def base64Chars : List Char :=
  "ABCDEFGHIJKLMNOPQRSTUVWXYZabcdefghijklmnopqrstuvwxyz0123456789+/".toList

/-- The base64 digit for a 6-bit value. -/
def b64Char (n : Nat) : Char := base64Chars.getD n 'A'

/-- Standard base64 encoding of a byte list, three bytes to four output
characters, padded with equals signs. -/
def base64Chunks : List Nat → List Char
  | [] => []
  | [a] => [b64Char (a / 4), b64Char (a % 4 * 16), '=', '=']
  | [a, b] => [b64Char (a / 4), b64Char (a % 4 * 16 + b / 16), b64Char (b % 16 * 4), '=']
  | a :: b :: c :: rest =>
      b64Char (a / 4) :: b64Char (a % 4 * 16 + b / 16) ::
      b64Char (b % 16 * 4 + c / 64) :: b64Char (c % 64) :: base64Chunks rest

/-- Model of `buffer.toString(base64)`. -/
def base64Encode (bytes : List Nat) : String :=
  String.mk (base64Chunks bytes)

theorem base64Encode_ne_empty (bytes : List Nat) (h : bytes ≠ []) :
    base64Encode bytes ≠ "" := by
  intro hcontra
  have hchunks : base64Chunks bytes = [] := by
    have : (base64Encode bytes).toList = ("" : String).toList := by rw [hcontra]
    simpa [base64Encode] using this
  match bytes, h with
  | [a], _ => simp [base64Chunks] at hchunks
  | [a, b], _ => simp [base64Chunks] at hchunks
  | a :: b :: c :: rest, _ => simp [base64Chunks] at hchunks

/-! ### Result envelope (types/responses.ts, WindowsControlResponse) -/

/-- A screen coordinate pair. -/
structure Position where
  x : Int
  y : Int
  deriving DecidableEq, Repr

/-- A width/height pair. -/
structure Size where
  width : Int
  height : Int
  deriving DecidableEq, Repr

/-- A window view rectangle as reported by workwindow.getView. -/
structure ViewInfo where
  x : Int
  y : Int
  width : Int
  height : Int
  deriving DecidableEq, Repr

/-- The window descriptor returned by keysender getAllWindows. -/
structure WindowInfo where
  title : String
  className : String
  handle : Nat
  deriving DecidableEq, Repr

/-- The requestedSize / requestedPosition field of a resize or reposition
response payload. -/
inductive ReqField where
  | reqSize : Size → ReqField
  | reqPos : Position → ReqField
  deriving DecidableEq, Repr

/-- The operation-specific data payloads occurring in the embedded
operations.  The two optional booleans of `window` model the optional
presence of the isForeground and isOpen keys. -/
inductive RData where
  | window : String → String → Nat → Position → Size → Option Bool → Option Bool → RData
  | windowOp : String → Nat → Position → Size → Bool → ReqField → RData
  | dims : Int → Int → RData
  deriving DecidableEq, Repr

/-- The uniform result envelope (WindowsControlResponse). -/
structure WCResponse where
  success : Bool
  message : String
  data : Option RData := none
  screenshot : Option String := none
  encoding : Option String := none
  contentImage : Option (String × String) := none
  deriving DecidableEq, Repr

/-! ### Mouse automation (tools/mouse.ts)

Coordinates are JavaScript numbers; the embedding keeps NaN explicit and
restricts finite values to integers, which is all the validation logic
inspects. -/

/-- A JavaScript number argument: NaN or an integer value. -/
inductive JsNum where
  | nan : JsNum
  | val : Int → JsNum
  deriving DecidableEq, Repr

/-- A mouse position argument with possibly-NaN components. -/
structure JsPos where
  x : JsNum
  y : JsNum
  deriving DecidableEq, Repr

def jsNumIsNaN : JsNum → Bool
  | .nan => true
  | .val _ => false

def jsNumToString : JsNum → String
  | .nan => "NaN"
  | .val v => toString v

/-- MAX_ALLOWED_COORDINATE from tools/mouse.ts. -/
def MAX_ALLOWED_COORDINATE : Int := 10000

/-- True when a finite coordinate pair lies outside the reasonable-bounds
square checked by validateMousePosition. -/
def outOfReasonableBounds (x y : Int) : Bool :=
  x < -MAX_ALLOWED_COORDINATE || x > MAX_ALLOWED_COORDINATE ||
  y < -MAX_ALLOWED_COORDINATE || y > MAX_ALLOWED_COORDINATE

/-- The backend mouse capability obtained from the provider factory.  Each
field is the envelope the provider call returns, or `.error` when the call
throws. -/
structure MouseBackend where
  moveMouse : JsPos → Except String WCResponse
  clickMouse : String → Except String WCResponse
  doubleClick : Option JsPos → Except String WCResponse
  scrollMouse : JsNum → Except String WCResponse
  dragMouse : JsPos → JsPos → String → Except String WCResponse
  clickAtCall : JsNum → JsNum → String → Except String WCResponse

/-- validateMousePosition from tools/mouse.ts.  The NaN rejection sits
before the try block, so it applies in every environment.  The
reasonable-bounds rejection is raised inside a try whose catch swallows
the error when NODE_ENV is test or VITEST is set (`isTestEnv`), so it only
takes effect outside test environments.  The screen-bounds comparison in
the source throws inside the same inner try whose catch merely warns and
continues, so it can never reject a position and is omitted here. -/
def validateMousePosition (pos : JsPos) (isTestEnv : Bool) : Except String Unit :=
  match pos.x, pos.y with
  | .nan, _ =>
      .error ("Invalid mouse position: x and y cannot be NaN, got x=" ++
        jsNumToString pos.x ++ ", y=" ++ jsNumToString pos.y)
  | _, .nan =>
      .error ("Invalid mouse position: x and y cannot be NaN, got x=" ++
        jsNumToString pos.x ++ ", y=" ++ jsNumToString pos.y)
  | .val x, .val y =>
      if outOfReasonableBounds x y && !isTestEnv then
        .error ("Position (" ++ toString x ++ "," ++ toString y ++
          ") is outside reasonable bounds (-10000, -10000)-(10000, 10000)")
      else
        .ok ()

/-- validateMouseButton from tools/mouse.ts.  An empty string is falsy in
the first check. -/
def validateMouseButton (button : String) : Except String String :=
  if button = "" then
    .error ("Invalid mouse button: " ++ button)
  else if button = "left" || button = "right" || button = "middle" then
    .ok button
  else
    .error ("Invalid mouse button: " ++ button ++ ". Must be 'left', 'right', or 'middle'")

/-- Each operation also reports the list of provider-capability calls it
made, so that never-reaches-the-backend claims are expressible. -/
abbrev MouseResult := WCResponse × List String

def moveMouse (be : MouseBackend) (isTestEnv : Bool) (pos : JsPos) : MouseResult :=
  match validateMousePosition pos isTestEnv with
  | .error e => ({ success := false, message := "Failed to move mouse: " ++ e }, [])
  | .ok _ =>
      match be.moveMouse pos with
      | .ok r => (r, ["mouse.moveMouse"])
      | .error e =>
          ({ success := false, message := "Failed to move mouse: " ++ e }, ["mouse.moveMouse"])

def clickMouse (be : MouseBackend) (button : String) : MouseResult :=
  match validateMouseButton button with
  | .error e => ({ success := false, message := "Failed to click mouse: " ++ e }, [])
  | .ok b =>
      match be.clickMouse b with
      | .ok r => (r, ["mouse.clickMouse"])
      | .error e =>
          ({ success := false, message := "Failed to click mouse: " ++ e }, ["mouse.clickMouse"])

def doubleClick (be : MouseBackend) (isTestEnv : Bool) (pos : Option JsPos) : MouseResult :=
  match pos with
  | some p =>
      match validateMousePosition p isTestEnv with
      | .error e => ({ success := false, message := "Failed to double click: " ++ e }, [])
      | .ok _ =>
          match be.doubleClick (some p) with
          | .ok r => (r, ["mouse.doubleClick"])
          | .error e =>
              ({ success := false, message := "Failed to double click: " ++ e },
               ["mouse.doubleClick"])
  | none =>
      match be.doubleClick none with
      | .ok r => (r, ["mouse.doubleClick"])
      | .error e =>
          ({ success := false, message := "Failed to double click: " ++ e },
           ["mouse.doubleClick"])

def scrollMouse (be : MouseBackend) (amount : JsNum) : MouseResult :=
  match amount with
  | .nan =>
      ({ success := false,
         message := "Failed to scroll mouse: Invalid scroll amount: NaN. Must be a number" }, [])
  | .val a =>
      if a.natAbs > 1000 then
        ({ success := false,
           message := "Failed to scroll mouse: Scroll amount too large: " ++ toString a ++
             " (max 1000)" }, [])
      else
        match be.scrollMouse (.val a) with
        | .ok r => (r, ["mouse.scrollMouse"])
        | .error e =>
            ({ success := false, message := "Failed to scroll mouse: " ++ e },
             ["mouse.scrollMouse"])

def dragMouse (be : MouseBackend) (isTestEnv : Bool) (from_ dest : JsPos) (button : String) :
    MouseResult :=
  match validateMousePosition from_ isTestEnv with
  | .error e => ({ success := false, message := "Failed to drag mouse: " ++ e }, [])
  | .ok _ =>
      match validateMousePosition dest isTestEnv with
      | .error e => ({ success := false, message := "Failed to drag mouse: " ++ e }, [])
      | .ok _ =>
          match validateMouseButton button with
          | .error e => ({ success := false, message := "Failed to drag mouse: " ++ e }, [])
          | .ok b =>
              match be.dragMouse from_ dest b with
              | .ok r => (r, ["mouse.dragMouse"])
              | .error e =>
                  ({ success := false, message := "Failed to drag mouse: " ++ e },
                   ["mouse.dragMouse"])

def clickAt (be : MouseBackend) (isTestEnv : Bool) (x y : JsNum) (button : String) :
    MouseResult :=
  if jsNumIsNaN x || jsNumIsNaN y then
    ({ success := false, message := "Invalid coordinates provided" }, [])
  else
    match validateMousePosition ⟨x, y⟩ isTestEnv with
    | .error e => ({ success := false, message := "Failed to click at position: " ++ e }, [])
    | .ok _ =>
        match validateMouseButton button with
        | .error e =>
            ({ success := false, message := "Failed to click at position: " ++ e }, [])
        | .ok b =>
            match be.clickAtCall x y b with
            | .ok r => (r, ["mouse.clickAt"])
            | .error e =>
                ({ success := false, message := "Failed to click at position: " ++ e },
                 ["mouse.clickAt"])

/-! ### Screen automation (providers/keysender/screen.ts, KeysenderScreenAutomation)

The keysender native layer and the main hardware workwindow are modelled
as one oracle structure.  An `Option`/`Except` value of `none`/`.error`
models the corresponding native call throwing.  The two reads of the main
workwindow view inside updateWindowPosition happen at different times and
therefore have separate oracle fields. -/

structure ScreenBackend where
  getAllWindows : Option (List WindowInfo)
  getViewByHandle : Nat → Option ViewInfo
  setWorkwindow : Option Unit
  setForegroundResult : Option Unit
  isForegroundResult : Option Bool
  isOpenResult : Option Bool
  childWindows : Nat → Option (List WindowInfo)
  viewBeforeUpdate : Option ViewInfo
  setViewResult : Option Unit
  viewAfterUpdate : Option ViewInfo

/-- The source filter keeping windows whose title is a non-empty string
with non-whitespace content (`w.title && typeof w.title === string &&
w.title.trim() !== ""`). -/
def windowsWithTitle (ws : List WindowInfo) : List WindowInfo :=
  ws.filter (fun w => w.title.toList.any (fun c => !c.isWhitespace))

/-- The single match filter of findSuitableWindow: exact title equality,
or substring containment, or case-insensitive substring containment, as
one disjunction. -/
def titleMatches (target : String) (w : WindowInfo) : Bool :=
  w.title == target || strContains w.title target ||
    containsSeq (jsToLower w.title) (jsToLower target)

/-- The matching-window set computed at the top of findSuitableWindow:
empty when no target title was given. -/
def matchingWindows (target : Option String) (wt : List WindowInfo) : List WindowInfo :=
  match target with
  | some t => wt.filter (titleMatches t)
  | none => []

/-- The fixed preferred-application titles of findSuitableWindow. -/
def preferredAppTitles : List String :=
  ["Notepad", "Chrome", "Firefox", "Visual Studio Code", "Word", "Excel", "PowerPoint"]

def isPreferredWindow (w : WindowInfo) : Bool :=
  preferredAppTitles.any (fun t => strContains w.title t)

/-- The candidate set after the no-match fallback of findSuitableWindow:
`none` when a required target (a title other than the Unknown sentinel)
had no match; otherwise the matches, or the preferred windows, or the
whole titled set. -/
def candidatesAfterFallback (wt : List WindowInfo) (target : Option String)
    (matching : List WindowInfo) : Option (List WindowInfo) :=
  if matching.isEmpty then
    if target.isSome && target ≠ some "Unknown" then
      none
    else
      let preferredWindows := wt.filter isPreferredWindow
      some (if preferredWindows.isEmpty then wt else preferredWindows)
  else
    some matching

/-- The geometry validity check of findSuitableWindow: positive width and
height, origin above -10000 on each axis. -/
def validViewInfo (v : ViewInfo) : Bool :=
  v.width > 0 && v.height > 0 && v.x > -10000 && v.y > -10000

/-- The candidate loop of findSuitableWindow: the first candidate whose
view read succeeds and passes geometry validation; a throwing view read
moves on to the next candidate. -/
def firstValidWindow (be : ScreenBackend) : List WindowInfo → Option (WindowInfo × ViewInfo)
  | [] => none
  | w :: rest =>
      match be.getViewByHandle w.handle with
      | some v => if validViewInfo v then some (w, v) else firstValidWindow be rest
      | none => firstValidWindow be rest

/-- findSuitableWindow from screen.ts: enumerate windows, keep titled
ones, filter by the target title, fall back to preferred applications or
the whole titled set when allowed, pick the first candidate with valid
geometry, and finally fall back to the first candidate with the fixed
default rectangle. -/
def findSuitableWindow (be : ScreenBackend) (targetTitle : Option String) :
    Option (WindowInfo × ViewInfo) :=
  match be.getAllWindows with
  | none => none
  | some allWindows =>
      if allWindows.isEmpty then none
      else
        let wt := windowsWithTitle allWindows
        if wt.isEmpty then none
        else
          match candidatesAfterFallback wt targetTitle (matchingWindows targetTitle wt) with
          | none => none
          | some candidates =>
              match firstValidWindow be candidates with
              | some found => some found
              | none =>
                  match candidates with
                  | [] => none
                  | w :: _ => some (w, ⟨0, 0, 800, 600⟩)

/-- JavaScript falsy-string fallback `s || alt`. -/
def jsOrStr (s alt : String) : String :=
  if s = "" then alt else s

/-- getActiveWindow from screen.ts.  With no suitable window it succeeds
with the Unknown placeholder descriptor; otherwise the workwindow is set
(failure swallowed) and the foreground flag read (failure yields false). -/
def getActiveWindow (be : ScreenBackend) : WCResponse :=
  match findSuitableWindow be none with
  | none =>
      { success := true,
        message := "Active window: Unknown (no suitable window found)",
        data := some (.window "Unknown" "Unknown" 0 ⟨0, 0⟩ ⟨0, 0⟩ none none) }
  | some (w, viewInfo) =>
      let isForeground := be.isForegroundResult.getD false
      { success := true,
        message := "Active window: " ++ w.title ++
          (if isForeground then " (foreground)" else ""),
        data := some (.window w.title (jsOrStr w.className "Unknown") w.handle
          ⟨viewInfo.x, viewInfo.y⟩ ⟨viewInfo.width, viewInfo.height⟩
          (some isForeground) none) }

/-- focusWindow from screen.ts.  Resolution failure with the Unknown
sentinel retries untargeted; in that branch a throwing workwindow.set
falls through to the missing-window failure.  In the main branch every
subsequent native call has its own catch: set and setForeground failures
are swallowed, isForeground and isOpen failures yield false, and the
child-window enumeration is only logged. -/
def focusWindow (be : ScreenBackend) (title : String) : WCResponse :=
  match findSuitableWindow be (some title) with
  | none =>
      if title = "Unknown" then
        match findSuitableWindow be none with
        | some (w, viewInfo) =>
            match be.setWorkwindow with
            | some _ =>
                let isForeground := be.isForegroundResult.getD false
                { success := true,
                  message := "Focused alternative window: " ++ w.title,
                  data := some (.window w.title (jsOrStr w.className "Unknown") w.handle
                    ⟨viewInfo.x, viewInfo.y⟩ ⟨viewInfo.width, viewInfo.height⟩
                    (some isForeground) none) }
            | none =>
                { success := false, message := "Could not find window with title: " ++ title }
        | none =>
            { success := false, message := "Could not find window with title: " ++ title }
      else
        { success := false, message := "Could not find window with title: " ++ title }
  | some (w, viewInfo) =>
      let isForeground := be.isForegroundResult.getD false
      let isOpen := be.isOpenResult.getD false
      { success := true,
        message := "Focused window: " ++ w.title ++
          (if isForeground then " (foreground)" else "") ++
          (if isOpen then " (open)" else ""),
        data := some (.window w.title (jsOrStr w.className "Unknown") w.handle
          ⟨viewInfo.x, viewInfo.y⟩ ⟨viewInfo.width, viewInfo.height⟩
          (some isForeground) (some isOpen)) }

/-- JavaScript falsy-number fallback `a || b` on integers (NaN cannot
occur here, so only zero falls back). -/
def jsOrInt (a b : Int) : Int :=
  if a = 0 then b else a

inductive OpType where
  | reposition : OpType
  | resize : OpType
  deriving DecidableEq, Repr

/-- updateWindowPosition from screen.ts, as the fully awaited sequence:
focus the window, read the current view (zeros when the read throws),
merge the requested fields over the current ones (the source writes
`currentView.x || 0`, identity on integers), apply the new view (failure
swallowed), re-read the view after a settle delay (the requested values
when the re-read throws), read the foreground flag (false on failure),
and report.  The reported position and size use a falsy fallback from the
re-read value to the requested one. -/
def updateWindowPosition (be : ScreenBackend) (windowTitle : String)
    (x y width height : Option Int) (op : OpType) : WCResponse :=
  let focusResult := focusWindow be windowTitle
  if !focusResult.success then focusResult
  else
    let actualTitle :=
      match focusResult.data with
      | some (.window t _ _ _ _ _ _) => jsOrStr t windowTitle
      | _ => windowTitle
    let handle :=
      match focusResult.data with
      | some (.window _ _ h _ _ _ _) => h
      | _ => 0
    let currentView := be.viewBeforeUpdate.getD ⟨0, 0, 0, 0⟩
    let newView : ViewInfo :=
      { x := x.getD currentView.x,
        y := y.getD currentView.y,
        width := width.getD currentView.width,
        height := height.getD currentView.height }
    let updatedView := be.viewAfterUpdate.getD newView
    let isForeground := be.isForegroundResult.getD false
    { success := true,
      message :=
        (match op with
         | .resize => "Resized window \"" ++ actualTitle ++ "\" to " ++
             toString (width.getD 0) ++ "x" ++ toString (height.getD 0)
         | .reposition => "Repositioned window \"" ++ actualTitle ++ "\" to (" ++
             toString (x.getD 0) ++ ", " ++ toString (y.getD 0) ++ ")"),
      data := some (.windowOp actualTitle handle
        ⟨jsOrInt updatedView.x newView.x, jsOrInt updatedView.y newView.y⟩
        ⟨jsOrInt updatedView.width newView.width, jsOrInt updatedView.height newView.height⟩
        isForeground
        (match op with
         | .resize => .reqSize ⟨jsOrInt (width.getD 0) 0, jsOrInt (height.getD 0) 0⟩
         | .reposition => .reqPos ⟨jsOrInt (x.getD 0) 0, jsOrInt (y.getD 0) 0⟩)) }

/-- resizeWindow from screen.ts: the async updateWindowPosition sequence
is started but not awaited (`void this.updateWindowPosition(...)`), and a
canned success envelope with the requested size, handle 0, zero position
and a false foreground flag is returned immediately.  The surrounding
catch cannot fire and is omitted. -/
def resizeWindow (be : ScreenBackend) (title : String) (width height : Int) : WCResponse :=
  let _backgroundWork := updateWindowPosition be title none none (some width) (some height) .resize
  { success := true,
    message := "Resized window \"" ++ title ++ "\" to " ++
      toString width ++ "x" ++ toString height,
    data := some (.windowOp title 0 ⟨0, 0⟩ ⟨width, height⟩ false
      (.reqSize ⟨width, height⟩)) }

/-- repositionWindow from screen.ts: same fire-and-forget shape as
resizeWindow, with the requested position and a zero size. -/
def repositionWindow (be : ScreenBackend) (title : String) (x y : Int) : WCResponse :=
  let _backgroundWork := updateWindowPosition be title (some x) (some y) none none .reposition
  { success := true,
    message := "Repositioned window \"" ++ title ++ "\" to (" ++
      toString x ++ ", " ++ toString y ++ ")",
    data := some (.windowOp title 0 ⟨x, y⟩ ⟨0, 0⟩ false
      (.reqPos ⟨x, y⟩)) }

/-- getScreenSize from screen.ts: read the two primary metrics via
GetSystemMetrics (either call may throw), treat a zero dimension as a
thrown error, and wrap everything in the koffi failure message. -/
def getScreenSize (getSystemMetrics : Int → Except String Int) : WCResponse :=
  match getSystemMetrics 0 with
  | .error e =>
      { success := false, message := "Failed to get screen size using koffi: " ++ e }
  | .ok screenWidth =>
      match getSystemMetrics 1 with
      | .error e =>
          { success := false, message := "Failed to get screen size using koffi: " ++ e }
      | .ok screenHeight =>
          if screenWidth = 0 || screenHeight = 0 then
            { success := false,
              message := "Failed to get screen size using koffi: GetSystemMetrics returned zero for screen dimensions." }
          else
            { success := true,
              message := "Primary screen size: " ++ toString screenWidth ++ "x" ++
                toString screenHeight,
              data := some (.dims screenWidth screenHeight) }

/-! ### Screenshot pipeline (screen.ts getScreenshot) -/

/-- A capture region request. -/
structure Region where
  x : Int
  y : Int
  width : Int
  height : Int
  deriving DecidableEq, Repr

/-- ScreenshotOptions: every field optional; merging with the defaults
follows JavaScript object spread (a present field overrides). -/
structure ScreenshotOpts where
  region : Option Region := none
  format : Option String := none
  quality : Option Nat := none
  grayscale : Option Bool := none
  compressionLevel : Option Nat := none
  resizeWidth : Option Int := none
  resizeHeight : Option Int := none
  resizeFit : Option String := none
  deriving DecidableEq, Repr

/-- The raw result of workwindow.capture: a byte buffer plus reported
dimensions. -/
structure CaptureResult where
  data : List Nat
  width : Int
  height : Int
  deriving DecidableEq, Repr

/-- The native and library calls getScreenshot depends on.  `sharpImport`
models the dynamic `import(sharp)`; `sharpOutput` abstracts the whole
sharp pipeline (downsample, alpha drop, colorspace, grayscale, final
resize, encode) as a function of the raw buffer, returning the encoded
bytes or the raised processing error.  Its dependence on the merged
options does not matter for the stated properties. -/
structure ScreenshotBackend where
  sharpImport : Except String Unit
  captureFull : Except String CaptureResult
  captureRegion : Region → Except String CaptureResult
  sharpOutput : List Nat → Except String (List Nat)

/-- The degraded-path display size: uniform downscale by
`min(1280/width, 1280/height)` when either dimension exceeds 1280, using
rational arithmetic and round-half-up as JavaScript Math.round does. -/
def fallbackScaledDims (w h : Int) : Int × Int :=
  let scaleFactor : ℚ :=
    if w > 1280 ∨ h > 1280 then min ((1280 : ℚ) / (w : ℚ)) ((1280 : ℚ) / (h : ℚ)) else 1
  (round ((w : ℚ) * scaleFactor), round ((h : ℚ) * scaleFactor))

/-- The region of a call, for either shape of the options argument. -/
def regionOf (options : Option ScreenshotOpts) : Option Region :=
  match options with
  | some o => o.region
  | none => none

/-- The merged output format, defaulted to jpeg. -/
def mergedFormat (options : Option ScreenshotOpts) : String :=
  match options with
  | some o => o.format.getD "jpeg"
  | none => "jpeg"

/-- getScreenshot from screen.ts.  The sharp import happens first inside
the outer try, then the capture (region or full screen); a throw from
either lands in the outer catch and fails the call.  A successful capture
feeds the sharp pipeline; if the pipeline raises the degraded fallback
re-encodes the raw buffer and reports a scaled display size, still as a
success.  Region calls report the requested region dimensions in both
branches; Math.round on the already-integral capture dimensions is the
identity. -/
def getScreenshot (be : ScreenshotBackend) (options : Option ScreenshotOpts) : WCResponse :=
  match be.sharpImport with
  | .error e =>
      { success := false, message := "Failed to capture screenshot: " ++ e }
  | .ok _ =>
      let captureResult :=
        match regionOf options with
        | some r => be.captureRegion r
        | none => be.captureFull
      match captureResult with
      | .error e =>
          { success := false, message := "Failed to capture screenshot: " ++ e }
      | .ok cap =>
          let mimeType := if mergedFormat options = "jpeg" then "image/jpeg" else "image/png"
          match be.sharpOutput cap.data with
          | .ok outputBuffer =>
              let base64Data := base64Encode outputBuffer
              { success := true,
                message := "Screenshot captured successfully",
                screenshot := some base64Data,
                encoding := some "base64",
                data := some (match regionOf options with
                  | some r => .dims r.width r.height
                  | none => .dims cap.width cap.height),
                contentImage := some (base64Data, mimeType) }
          | .error _ =>
              let base64Data := base64Encode cap.data
              let scaled := fallbackScaledDims cap.width cap.height
              { success := true,
                message := "Screenshot captured with basic processing",
                screenshot := some base64Data,
                encoding := some "base64",
                data := some (match regionOf options with
                  | some r => .dims r.width r.height
                  | none => .dims scaled.1 scaled.2),
                contentImage := some (base64Data, mimeType) }

/-! ### Tool dispatch for the unsupported window operations
(handlers/tools.ts, minimize_window and restore_window cases) -/

/-- The minimize_window handler arm: a fixed not-supported failure that
never touches the provider; the returned call list records any provider
capability invocations, of which there are none. -/
def handleMinimizeWindow (_provider : ScreenBackend) (_title : String) :
    WCResponse × List String :=
  ({ success := false, message := "Minimize window operation is not supported" }, [])

/-- The restore_window handler arm, same shape as minimize_window. -/
def handleRestoreWindow (_provider : ScreenBackend) (_title : String) :
    WCResponse × List String :=
  ({ success := false, message := "Restore window operation is not supported" }, [])

/-! ### Shared helper lemmas -/

theorem strContains_append (pre e : String) : strContains (pre ++ e) e = true := by
  unfold strContains
  have : (pre ++ e).toList = pre.toList ++ e.toList := rfl
  rw [this]
  exact containsSeq_append_self _ _

theorem findSuitableWindow_empty (be : ScreenBackend) (t : Option String)
    (h : be.getAllWindows = some []) : findSuitableWindow be t = none := by
  simp [findSuitableWindow, h]

/-- A candidate the findSuitableWindow loop rejects: its view read throws
or the view fails geometry validation. -/
def viewRejected (be : ScreenBackend) (w : WindowInfo) : Bool :=
  match be.getViewByHandle w.handle with
  | some v => !validViewInfo v
  | none => true

theorem firstValidWindow_eq_none (be : ScreenBackend) (l : List WindowInfo)
    (h : ∀ w ∈ l, viewRejected be w = true) : firstValidWindow be l = none := by
  induction l with
  | nil => rfl
  | cons w rest ih =>
    have hw := h w (List.mem_cons_self w rest)
    have hrest := ih (fun x hx => h x (List.mem_cons_of_mem w hx))
    unfold firstValidWindow
    unfold viewRejected at hw
    cases hvw : be.getViewByHandle w.handle with
    | none => exact hrest
    | some v =>
      rw [hvw] at hw
      simp only [Bool.not_eq_true'] at hw
      simp [hw, hrest]

/-! ### C2: tiered matching versus the source's single disjunctive filter -/

/-- The candidate tiering as the spec describes it: exact matches if any,
else substring matches if any, else case-insensitive substring matches.
Spec-side definition, written from the spec words for comparison with the
source filter. -/
def specTieredCandidates (t : String) (wt : List WindowInfo) : List WindowInfo :=
  let exact := wt.filter (fun w => w.title == t)
  if !exact.isEmpty then exact
  else
    let substr := wt.filter (fun w => strContains w.title t)
    if !substr.isEmpty then substr
    else wt.filter (fun w => containsSeq (jsToLower w.title) (jsToLower t))

/-- C2 counterexample: with windows titled A and xAx and target A, the
source filter keeps both windows (a union of the three predicates), while
the ordered-fallback tiering of the claim would keep only the exact match
A.  The claim is therefore false of the code. -/
theorem c2_counterexample_union_not_tiered :
    matchingWindows (some "A") [⟨"A", "ClassA", 1⟩, ⟨"xAx", "ClassB", 2⟩] =
      [⟨"A", "ClassA", 1⟩, ⟨"xAx", "ClassB", 2⟩] ∧
    specTieredCandidates "A" [⟨"A", "ClassA", 1⟩, ⟨"xAx", "ClassB", 2⟩] =
      [⟨"A", "ClassA", 1⟩] ∧
    matchingWindows (some "A") [⟨"A", "ClassA", 1⟩, ⟨"xAx", "ClassB", 2⟩] ≠
      specTieredCandidates "A" [⟨"A", "ClassA", 1⟩, ⟨"xAx", "ClassB", 2⟩] := by
  refine ⟨?_, ?_, ?_⟩ <;> decide

/-- C2 amended: the candidate set is the single filter accepting a window
when its title matches any of the three predicates; because an exact
match is a substring match and a substring match survives character-wise
lowering, this set equals the set of case-insensitive substring matches.
No ordered tier preference is applied. -/
theorem c2_amended_filter_is_union (t : String) (wt : List WindowInfo) :
    matchingWindows (some t) wt =
      wt.filter (fun w => containsSeq (jsToLower w.title) (jsToLower t)) := by
  unfold matchingWindows
  apply List.filter_congr
  intro w _
  unfold titleMatches
  cases hc : containsSeq (jsToLower w.title) (jsToLower t) with
  | true => simp [hc]
  | false =>
    have h1 : (w.title == t) = false := by
      by_contra hcon
      rw [Bool.not_eq_false, beq_iff_eq] at hcon
      rw [hcon] at hc
      simp [containsSeq_refl] at hc
    have h2 : strContains w.title t = false := by
      by_contra hcon
      rw [Bool.not_eq_false] at hcon
      unfold strContains at hcon
      have hmap := containsSeq_map Char.toLower _ _ hcon
      unfold jsToLower at hc
      rw [hmap] at hc
      cases hc
    simp [h1, h2, hc]

/-! ### C5: empty enumeration handled differently by focusWindow and
getActiveWindow -/

/-- C5: with an empty window enumeration, focusWindow fails with the
missing-window message carrying the searched title, while getActiveWindow
succeeds with the fixed Unknown placeholder descriptor. -/
theorem c5_empty_list_focus_fails_active_succeeds (be : ScreenBackend) (title : String)
    (h : be.getAllWindows = some []) :
    (focusWindow be title).success = false ∧
    (focusWindow be title).message = "Could not find window with title: " ++ title ∧
    strContains (focusWindow be title).message title = true ∧
    getActiveWindow be =
      { success := true,
        message := "Active window: Unknown (no suitable window found)",
        data := some (.window "Unknown" "Unknown" 0 ⟨0, 0⟩ ⟨0, 0⟩ none none) } := by
  have hfsw : ∀ t, findSuitableWindow be t = none := fun t => findSuitableWindow_empty be t h
  have hfocus : focusWindow be title =
      { success := false, message := "Could not find window with title: " ++ title } := by
    unfold focusWindow
    rw [hfsw]
    by_cases hu : title = "Unknown"
    · simp [hu, hfsw]
    · simp [hu]
  refine ⟨by rw [hfocus], by rw [hfocus], ?_, ?_⟩
  · rw [hfocus]
    exact strContains_append _ _
  · unfold getActiveWindow
    rw [hfsw]

/-- C5 witness at a concrete backend with an empty enumeration. -/
def c5Backend : ScreenBackend :=
  { getAllWindows := some [],
    getViewByHandle := fun _ => none,
    setWorkwindow := none,
    setForegroundResult := none,
    isForegroundResult := none,
    isOpenResult := none,
    childWindows := fun _ => none,
    viewBeforeUpdate := none,
    setViewResult := none,
    viewAfterUpdate := none }

theorem c5_witness :
    (focusWindow c5Backend "Target Window").success = false ∧
    (focusWindow c5Backend "Target Window").message =
      "Could not find window with title: " ++ "Target Window" ∧
    strContains (focusWindow c5Backend "Target Window").message "Target Window" = true ∧
    getActiveWindow c5Backend =
      { success := true,
        message := "Active window: Unknown (no suitable window found)",
        data := some (.window "Unknown" "Unknown" 0 ⟨0, 0⟩ ⟨0, 0⟩ none none) } :=
  c5_empty_list_focus_fails_active_succeeds c5Backend "Target Window" rfl

/-! ### C6: geometry-validation failure falls back to the first candidate -/

/-- C6: when resolution reaches a non-empty candidate set and every
candidate is rejected by geometry validation (throwing view read, or
non-positive dimensions, or wildly negative origin), findSuitableWindow
returns the first candidate paired with the fixed 0,0,800,600 rectangle
instead of failing. -/
theorem c6_all_invalid_geometry_uses_fallback_rect (be : ScreenBackend)
    (target : Option String) (ws : List WindowInfo) (c : WindowInfo) (cs : List WindowInfo)
    (h1 : be.getAllWindows = some ws) (h2 : ws ≠ [])
    (h3 : windowsWithTitle ws ≠ [])
    (h4 : candidatesAfterFallback (windowsWithTitle ws) target
            (matchingWindows target (windowsWithTitle ws)) = some (c :: cs))
    (h5 : ∀ w ∈ c :: cs, viewRejected be w = true) :
    findSuitableWindow be target = some (c, ⟨0, 0, 800, 600⟩) := by
  unfold findSuitableWindow
  rw [h1]
  have hne : ws.isEmpty = false := by simpa [List.isEmpty_iff] using h2
  have hne3 : (windowsWithTitle ws).isEmpty = false := by simpa [List.isEmpty_iff] using h3
  simp only [hne, Bool.false_eq_true, if_false, hne3]
  rw [h4]
  simp [firstValidWindow_eq_none be _ h5]

/-- C6 witness backend: one window whose view rectangle has zero size. -/
def c6Backend : ScreenBackend :=
  { getAllWindows := some [⟨"Test Window", "TestClass", 7⟩],
    getViewByHandle := fun _ => some ⟨0, 0, 0, 0⟩,
    setWorkwindow := some (),
    setForegroundResult := some (),
    isForegroundResult := some true,
    isOpenResult := some true,
    childWindows := fun _ => some [],
    viewBeforeUpdate := none,
    setViewResult := none,
    viewAfterUpdate := none }

theorem c6_witness :
    findSuitableWindow c6Backend (some "Test Window") =
      some (⟨"Test Window", "TestClass", 7⟩, ⟨0, 0, 800, 600⟩) :=
  c6_all_invalid_geometry_uses_fallback_rect c6Backend (some "Test Window")
    [⟨"Test Window", "TestClass", 7⟩] ⟨"Test Window", "TestClass", 7⟩ []
    rfl (by decide) (by decide) (by decide) (by decide)

/-! ### C9: minimize_window and restore_window are hard-coded failures -/

/-- C9: the minimize_window and restore_window handler arms answer a
fixed not-supported failure for every title and provider state, and the
provider-call log stays empty. -/
theorem c9_minimize_restore_not_supported (be : ScreenBackend) (title : String) :
    handleMinimizeWindow be title =
      ({ success := false, message := "Minimize window operation is not supported" }, []) ∧
    handleRestoreWindow be title =
      ({ success := false, message := "Restore window operation is not supported" }, []) ∧
    strContains (handleMinimizeWindow be title).1.message "not supported" = true ∧
    strContains (handleRestoreWindow be title).1.message "not supported" = true := by
  refine ⟨rfl, rfl, ?_, ?_⟩
  · show strContains "Minimize window operation is not supported" "not supported" = true
    decide
  · show strContains "Restore window operation is not supported" "not supported" = true
    decide

/-! ### C10: focusWindow succeeds once resolution succeeds, whatever the
later backend calls do -/

/-- C10: once findSuitableWindow resolves a window, focusWindow returns
success regardless of whether workwindow.set, setForeground,
isForeground, isOpen or the child-window enumeration throw; the throwing
reads only drive the isForeground/isOpen flags to false. -/
theorem c10_focus_success_despite_backend_throws (be : ScreenBackend) (title : String)
    (w : WindowInfo) (v : ViewInfo)
    (h : findSuitableWindow be (some title) = some (w, v)) :
    (focusWindow be title).success = true ∧
    (focusWindow be title).data = some (.window w.title (jsOrStr w.className "Unknown")
      w.handle ⟨v.x, v.y⟩ ⟨v.width, v.height⟩
      (some (be.isForegroundResult.getD false)) (some (be.isOpenResult.getD false))) := by
  unfold focusWindow
  rw [h]
  exact ⟨rfl, rfl⟩

/-- C10 witness backend: resolution succeeds, every later call throws. -/
def c10Backend : ScreenBackend :=
  { getAllWindows := some [⟨"Test Window", "TestClass", 12345⟩],
    getViewByHandle := fun _ => some ⟨100, 200, 800, 600⟩,
    setWorkwindow := none,
    setForegroundResult := none,
    isForegroundResult := none,
    isOpenResult := none,
    childWindows := fun _ => none,
    viewBeforeUpdate := none,
    setViewResult := none,
    viewAfterUpdate := none }

theorem c10_witness :
    (focusWindow c10Backend "Test Window").success = true ∧
    (focusWindow c10Backend "Test Window").data =
      some (.window "Test Window" (jsOrStr "TestClass" "Unknown") 12345
        ⟨100, 200⟩ ⟨800, 600⟩ (some (c10Backend.isForegroundResult.getD false))
        (some (c10Backend.isOpenResult.getD false))) :=
  c10_focus_success_despite_backend_throws c10Backend "Test Window"
    ⟨"Test Window", "TestClass", 12345⟩ ⟨100, 200, 800, 600⟩ (by decide)

/-! ### C1: resize/reposition return before the resolve-read-merge-apply-
reread sequence completes -/

/-- C1 backend: the window resolves, every call succeeds, the window is
foreground, and the re-read view after the resize reports the window at
100,200 with the applied 1024x768 size. -/
def c1Backend : ScreenBackend :=
  { getAllWindows := some [⟨"Test Window", "TestClass", 12345⟩],
    getViewByHandle := fun _ => some ⟨100, 200, 800, 600⟩,
    setWorkwindow := some (),
    setForegroundResult := some (),
    isForegroundResult := some true,
    isOpenResult := some true,
    childWindows := fun _ => some [],
    viewBeforeUpdate := some ⟨100, 200, 800, 600⟩,
    setViewResult := some (),
    viewAfterUpdate := some ⟨100, 200, 1024, 768⟩ }

/-- C1: the envelopes resizeWindow and repositionWindow actually return
are the canned immediate responses (handle 0, zero or requested-only
geometry, isForeground false), not the envelopes the awaited
resolve-read-merge-apply-reread sequence (updateWindowPosition) would
produce; at this backend state the sequence reports the re-read geometry
100,200 and the true foreground flag, and the two envelopes differ. -/
theorem c1_resize_reposition_report_canned_envelope :
    resizeWindow c1Backend "Test Window" 1024 768 =
      { success := true,
        message := "Resized window \"Test Window\" to 1024x768",
        data := some (.windowOp "Test Window" 0 ⟨0, 0⟩ ⟨1024, 768⟩ false
          (.reqSize ⟨1024, 768⟩)) } ∧
    updateWindowPosition c1Backend "Test Window" none none (some 1024) (some 768) .resize =
      { success := true,
        message := "Resized window \"Test Window\" to 1024x768",
        data := some (.windowOp "Test Window" 12345 ⟨100, 200⟩ ⟨1024, 768⟩ true
          (.reqSize ⟨1024, 768⟩)) } ∧
    resizeWindow c1Backend "Test Window" 1024 768 ≠
      updateWindowPosition c1Backend "Test Window" none none (some 1024) (some 768) .resize ∧
    repositionWindow c1Backend "Test Window" 50 100 ≠
      updateWindowPosition c1Backend "Test Window" (some 50) (some 100) none none
        .reposition := by
  refine ⟨?_, ?_, ?_, ?_⟩ <;> decide

/-! ### C3: coordinate validation in moveMouse, clickAt and dragMouse -/

/-- C3 backend: every provider mouse call succeeds. -/
def c3Backend : MouseBackend :=
  { moveMouse := fun _ => .ok { success := true, message := "Mouse moved" },
    clickMouse := fun _ => .ok { success := true, message := "Mouse clicked" },
    doubleClick := fun _ => .ok { success := true, message := "Mouse double clicked" },
    scrollMouse := fun _ => .ok { success := true, message := "Mouse scrolled" },
    dragMouse := fun _ _ _ => .ok { success := true, message := "Mouse dragged" },
    clickAtCall := fun _ _ _ => .ok { success := true, message := "Mouse clicked at" } }

/-- C3 counterexample: in a test environment (NODE_ENV=test or VITEST),
the reasonable-bounds rejection is swallowed by the catch in
validateMousePosition, so moveMouse at x=20000 invokes the backend and
succeeds; the claim, which quantifies over every environment, is
therefore false of the code. -/
theorem c3_counterexample_test_env_reaches_backend :
    (moveMouse c3Backend true ⟨.val 20000, .val 0⟩).2 = ["mouse.moveMouse"] ∧
    (moveMouse c3Backend true ⟨.val 20000, .val 0⟩).1.success = true ∧
    outOfReasonableBounds 20000 0 = true := by
  refine ⟨?_, ?_, ?_⟩ <;> decide

theorem validateMousePosition_nan_error (p : JsPos) (env : Bool)
    (h : jsNumIsNaN p.x = true ∨ jsNumIsNaN p.y = true) :
    ∃ e, validateMousePosition p env = .error e := by
  unfold validateMousePosition
  rcases p with ⟨x, y⟩
  rcases x with _ | xv <;> rcases y with _ | yv
  · exact ⟨_, rfl⟩
  · exact ⟨_, rfl⟩
  · exact ⟨_, rfl⟩
  · simp [jsNumIsNaN] at h

theorem validateMousePosition_bounds_error (x y : Int)
    (h : outOfReasonableBounds x y = true) :
    ∃ e, validateMousePosition ⟨.val x, .val y⟩ false = .error e := by
  unfold validateMousePosition
  simp [h]

/-- The rejection condition of the amended C3: NaN in either coordinate
(any environment), or a finite coordinate outside the reasonable bounds
outside a test environment. -/
def c3Rejected (p : JsPos) (isTestEnv : Bool) : Prop :=
  jsNumIsNaN p.x = true ∨ jsNumIsNaN p.y = true ∨
    (isTestEnv = false ∧ ∃ x y : Int, p.x = .val x ∧ p.y = .val y ∧
      outOfReasonableBounds x y = true)

theorem validateMousePosition_rejects (p : JsPos) (env : Bool)
    (h : c3Rejected p env) :
    ∃ e, validateMousePosition p env = .error e := by
  rcases h with h | h | ⟨henv, x, y, hx, hy, hb⟩
  · exact validateMousePosition_nan_error p env (Or.inl h)
  · exact validateMousePosition_nan_error p env (Or.inr h)
  · rcases p with ⟨px, py⟩
    cases hx
    cases hy
    cases henv
    exact validateMousePosition_bounds_error x y hb

/-- C3 amended: for positions with a NaN coordinate (in every
environment), and for finite positions outside the plus-minus 10000
bounds when the process is not in a test environment, moveMouse, clickAt
and dragMouse (with the bad position in either slot) return a failure
envelope and never invoke a provider mouse capability; inside a test
environment the out-of-range check is skipped with only a warning. -/
theorem c3_amended_invalid_position_never_reaches_backend (be : MouseBackend)
    (env : Bool) (p q : JsPos) (button : String) (h : c3Rejected p env) :
    ((moveMouse be env p).1.success = false ∧ (moveMouse be env p).2 = []) ∧
    ((clickAt be env p.x p.y button).1.success = false ∧
      (clickAt be env p.x p.y button).2 = []) ∧
    ((dragMouse be env p q button).1.success = false ∧
      (dragMouse be env p q button).2 = []) ∧
    ((dragMouse be env q p button).1.success = false ∧
      (dragMouse be env q p button).2 = []) := by
  obtain ⟨e, he⟩ := validateMousePosition_rejects p env h
  refine ⟨?_, ?_, ?_, ?_⟩
  · unfold moveMouse
    rw [he]
    exact ⟨rfl, rfl⟩
  · unfold clickAt
    by_cases hnan : (jsNumIsNaN p.x || jsNumIsNaN p.y) = true
    · simp only [hnan, if_true]
      constructor <;> trivial
    · simp only [hnan, Bool.false_eq_true, if_false]
      have : validateMousePosition ⟨p.x, p.y⟩ env = .error e := by
        rcases p with ⟨px, py⟩
        exact he
      rw [this]
      exact ⟨rfl, rfl⟩
  · unfold dragMouse
    rw [he]
    exact ⟨rfl, rfl⟩
  · unfold dragMouse
    cases hq : validateMousePosition q env with
    | error eq2 => exact ⟨rfl, rfl⟩
    | ok u =>
        cases u
        rw [he]
        exact ⟨rfl, rfl⟩

theorem c3_amended_witness :
    ((moveMouse c3Backend false ⟨.val 20000, .val 0⟩).1.success = false ∧
      (moveMouse c3Backend false ⟨.val 20000, .val 0⟩).2 = []) ∧
    ((clickAt c3Backend false (.val 20000) (.val 0) "left").1.success = false ∧
      (clickAt c3Backend false (.val 20000) (.val 0) "left").2 = []) ∧
    ((dragMouse c3Backend false ⟨.val 20000, .val 0⟩ ⟨.val 1, .val 1⟩ "left").1.success =
        false ∧
      (dragMouse c3Backend false ⟨.val 20000, .val 0⟩ ⟨.val 1, .val 1⟩ "left").2 = []) ∧
    ((dragMouse c3Backend false ⟨.val 1, .val 1⟩ ⟨.val 20000, .val 0⟩ "left").1.success =
        false ∧
      (dragMouse c3Backend false ⟨.val 1, .val 1⟩ ⟨.val 20000, .val 0⟩ "left").2 = []) :=
  c3_amended_invalid_position_never_reaches_backend c3Backend false
    ⟨.val 20000, .val 0⟩ ⟨.val 1, .val 1⟩ "left"
    (Or.inr (Or.inr ⟨rfl, 20000, 0, rfl, rfl, by decide⟩))

/-! ### C4: degraded screenshot fallback -/

theorem rat_round_mono {x y : ℚ} (h : x ≤ y) : round x ≤ round y := by
  rw [round_eq, round_eq]
  exact Int.floor_le_floor (by linarith)

/-- The fallback display size is a uniform scale of the raw capture
dimensions (one factor for both axes) and fits within the 1280 bound. -/
theorem fallbackScaledDims_uniform (w h : Int) (hw : 0 < w) (hh : 0 < h) :
    ∃ f : ℚ, 0 < f ∧
      (fallbackScaledDims w h).1 = round ((w : ℚ) * f) ∧
      (fallbackScaledDims w h).2 = round ((h : ℚ) * f) ∧
      (fallbackScaledDims w h).1 ≤ 1280 ∧ (fallbackScaledDims w h).2 ≤ 1280 := by
  have hwq : (0 : ℚ) < (w : ℚ) := by exact_mod_cast hw
  have hhq : (0 : ℚ) < (h : ℚ) := by exact_mod_cast hh
  by_cases hbig : w > 1280 ∨ h > 1280
  · refine ⟨min ((1280 : ℚ) / (w : ℚ)) ((1280 : ℚ) / (h : ℚ)), ?_, ?_, ?_, ?_, ?_⟩
    · exact lt_min (div_pos (by norm_num) hwq) (div_pos (by norm_num) hhq)
    · simp [fallbackScaledDims, hbig]
    · simp [fallbackScaledDims, hbig]
    · have hle : (w : ℚ) * min ((1280 : ℚ) / (w : ℚ)) ((1280 : ℚ) / (h : ℚ)) ≤ 1280 := by
        have h1 : (w : ℚ) * min ((1280 : ℚ) / (w : ℚ)) ((1280 : ℚ) / (h : ℚ)) ≤
            (w : ℚ) * ((1280 : ℚ) / (w : ℚ)) :=
          mul_le_mul_of_nonneg_left (min_le_left _ _) (le_of_lt hwq)
        have h2 : (w : ℚ) * ((1280 : ℚ) / (w : ℚ)) = 1280 := by
          field_simp
        linarith
      have := rat_round_mono hle
      rw [show round ((1280 : ℚ)) = ((1280 : ℤ)) from by
        rw [show ((1280 : ℚ)) = (((1280 : ℤ) : ℚ)) from by norm_num, round_intCast]] at this
      simpa [fallbackScaledDims, hbig] using this
    · have hle : (h : ℚ) * min ((1280 : ℚ) / (w : ℚ)) ((1280 : ℚ) / (h : ℚ)) ≤ 1280 := by
        have h1 : (h : ℚ) * min ((1280 : ℚ) / (w : ℚ)) ((1280 : ℚ) / (h : ℚ)) ≤
            (h : ℚ) * ((1280 : ℚ) / (h : ℚ)) :=
          mul_le_mul_of_nonneg_left (min_le_right _ _) (le_of_lt hhq)
        have h2 : (h : ℚ) * ((1280 : ℚ) / (h : ℚ)) = 1280 := by
          field_simp
        linarith
      have := rat_round_mono hle
      rw [show round ((1280 : ℚ)) = ((1280 : ℤ)) from by
        rw [show ((1280 : ℚ)) = (((1280 : ℤ) : ℚ)) from by norm_num, round_intCast]] at this
      simpa [fallbackScaledDims, hbig] using this
  · push_neg at hbig
    refine ⟨1, one_pos, ?_, ?_, ?_, ?_⟩
    · simp [fallbackScaledDims, hbig.1.not_lt, hbig.2.not_lt]
    · simp [fallbackScaledDims, hbig.1.not_lt, hbig.2.not_lt]
    · have hfw : (fallbackScaledDims w h).1 = w := by
        simp [fallbackScaledDims, hbig.1.not_lt, hbig.2.not_lt]
      rw [hfw]
      exact hbig.1
    · have hfh : (fallbackScaledDims w h).2 = h := by
        simp [fallbackScaledDims, hbig.1.not_lt, hbig.2.not_lt]
      rw [hfh]
      exact hbig.2

/-- C4 counterexample backend: the dynamic sharp import throws while the
capture oracle would succeed. -/
def c4ImportFailBackend : ScreenshotBackend :=
  { sharpImport := .error "Cannot find module sharp",
    captureFull := .ok ⟨[1, 2, 3], 1920, 1080⟩,
    captureRegion := fun _ => .ok ⟨[1, 2, 3], 300, 400⟩,
    sharpOutput := fun _ => .ok [9, 9] }

/-- C4 counterexample: when the dynamic sharp import itself throws, the
outer catch fires before the capture stage runs, producing success false
even though the capture oracle would have succeeded; success false is
therefore not produced only by capture-stage failures. -/
theorem c4_counterexample_import_failure_fails_without_capture :
    (getScreenshot c4ImportFailBackend none).success = false ∧
    (getScreenshot c4ImportFailBackend none).message =
      "Failed to capture screenshot: Cannot find module sharp" ∧
    c4ImportFailBackend.captureFull = .ok ⟨[1, 2, 3], 1920, 1080⟩ :=
  ⟨rfl, rfl, rfl⟩

/-- C4 amended: once the sharp import succeeds, a full-screen call whose
capture succeeds but whose pixel pipeline raises still returns success
with the raw buffer re-encoded as a non-empty base64 screenshot and with
data dimensions equal to the capture dimensions scaled by one uniform
factor to fit within the 1280 bound; success false arises only from a
failed sharp import or a failed capture. -/
theorem c4_amended_fallback_degraded_success (be : ScreenshotBackend)
    (options : Option ScreenshotOpts) (cap : CaptureResult) (e : String)
    (hreg : regionOf options = none)
    (himp : be.sharpImport = .ok ())
    (hcap : be.captureFull = .ok cap)
    (hdata : cap.data ≠ [])
    (hw : 0 < cap.width) (hh : 0 < cap.height)
    (hsharp : be.sharpOutput cap.data = .error e) :
    (getScreenshot be options).success = true ∧
    (getScreenshot be options).screenshot = some (base64Encode cap.data) ∧
    base64Encode cap.data ≠ "" ∧
    (getScreenshot be options).data =
      some (.dims (fallbackScaledDims cap.width cap.height).1
        (fallbackScaledDims cap.width cap.height).2) ∧
    (∃ f : ℚ, 0 < f ∧
      (fallbackScaledDims cap.width cap.height).1 = round ((cap.width : ℚ) * f) ∧
      (fallbackScaledDims cap.width cap.height).2 = round ((cap.height : ℚ) * f) ∧
      (fallbackScaledDims cap.width cap.height).1 ≤ 1280 ∧
      (fallbackScaledDims cap.width cap.height).2 ≤ 1280) ∧
    (∀ (be2 : ScreenshotBackend) (opts2 : Option ScreenshotOpts),
      (getScreenshot be2 opts2).success = false →
      (∃ e2, be2.sharpImport = .error e2) ∨
      (∃ e2, (match regionOf opts2 with
              | some r => be2.captureRegion r
              | none => be2.captureFull) = .error e2)) := by
  have hout : getScreenshot be options =
      { success := true,
        message := "Screenshot captured with basic processing",
        screenshot := some (base64Encode cap.data),
        encoding := some "base64",
        data := some (.dims (fallbackScaledDims cap.width cap.height).1
          (fallbackScaledDims cap.width cap.height).2),
        contentImage := some (base64Encode cap.data,
          if mergedFormat options = "jpeg" then "image/jpeg" else "image/png") } := by
    simp only [getScreenshot, himp, hreg, hcap, hsharp]
  refine ⟨by rw [hout], by rw [hout], base64Encode_ne_empty cap.data hdata,
    by rw [hout], fallbackScaledDims_uniform cap.width cap.height hw hh, ?_⟩
  intro be2 opts2 hfail
  cases himp2 : be2.sharpImport with
  | error e2 => exact Or.inl ⟨e2, rfl⟩
  | ok u =>
      cases u
      cases hcap2 : (match regionOf opts2 with
          | some r => be2.captureRegion r
          | none => be2.captureFull) with
      | error e2 => exact Or.inr ⟨e2, rfl⟩
      | ok cap2 =>
          exfalso
          cases hsh : be2.sharpOutput cap2.data with
          | ok out =>
              have hsucc : (getScreenshot be2 opts2).success = true := by
                simp only [getScreenshot, himp2, hcap2, hsh]
              rw [hfail] at hsucc
              cases hsucc
          | error e3 =>
              have hsucc : (getScreenshot be2 opts2).success = true := by
                simp only [getScreenshot, himp2, hcap2, hsh]
              rw [hfail] at hsucc
              cases hsucc

/-- C4 witness backend: a 1920x1080 capture whose pipeline raises. -/
def c4FallbackBackend : ScreenshotBackend :=
  { sharpImport := .ok (),
    captureFull := .ok ⟨[1, 2, 3], 1920, 1080⟩,
    captureRegion := fun _ => .ok ⟨[1, 2, 3], 300, 400⟩,
    sharpOutput := fun _ => .error "Input buffer has corrupt header" }

theorem c4_witness :
    (getScreenshot c4FallbackBackend none).success = true ∧
    (getScreenshot c4FallbackBackend none).screenshot = some (base64Encode [1, 2, 3]) ∧
    base64Encode [1, 2, 3] ≠ "" ∧
    (getScreenshot c4FallbackBackend none).data =
      some (.dims (fallbackScaledDims 1920 1080).1 (fallbackScaledDims 1920 1080).2) ∧
    (∃ f : ℚ, 0 < f ∧
      (fallbackScaledDims 1920 1080).1 = round ((1920 : ℚ) * f) ∧
      (fallbackScaledDims 1920 1080).2 = round ((1080 : ℚ) * f) ∧
      (fallbackScaledDims 1920 1080).1 ≤ 1280 ∧
      (fallbackScaledDims 1920 1080).2 ≤ 1280) ∧
    (∀ (be2 : ScreenshotBackend) (opts2 : Option ScreenshotOpts),
      (getScreenshot be2 opts2).success = false →
      (∃ e2, be2.sharpImport = .error e2) ∨
      (∃ e2, (match regionOf opts2 with
              | some r => be2.captureRegion r
              | none => be2.captureFull) = .error e2)) := by
  have := c4_amended_fallback_degraded_success c4FallbackBackend none
    ⟨[1, 2, 3], 1920, 1080⟩ "Input buffer has corrupt header"
    rfl rfl rfl (by decide) (by decide) (by decide) rfl
  exact this

/-! ### C7: reported screenshot dimensions -/

/-- The full-screen output size of the normalization pipeline as the spec
describes it: the capture is immediately downsampled to at most the 1280
target width, preserving the aspect ratio.  Spec-side definition, written
from the spec words for comparison with the reported dimensions. -/
def specPipelineOutputDims (w h : Int) : Int × Int :=
  if w > 1280 then (1280, round ((h : ℚ) * 1280 / (w : ℚ))) else (w, h)

/-- C7 backend: a full-screen capture reporting 1920x1080 whose pipeline
succeeds; region captures report dimensions off by one from the request. -/
def c7Backend : ScreenshotBackend :=
  { sharpImport := .ok (),
    captureFull := .ok ⟨[1, 2, 3], 1920, 1080⟩,
    captureRegion := fun r => .ok ⟨[1, 2, 3], r.width + 1, r.height + 1⟩,
    sharpOutput := fun _ => .ok [7, 7, 7] }

/-- C7 counterexample: on the normal full-screen path the reported data
dimensions are the raw capture dimensions 1920x1080, not the 1280x720 the
normalization pipeline effectively produces, so the full-screen half of
the claim is false of the code. -/
theorem c7_counterexample_fullscreen_reports_raw_dims :
    (getScreenshot c7Backend none).success = true ∧
    (getScreenshot c7Backend none).data = some (.dims 1920 1080) ∧
    specPipelineOutputDims 1920 1080 = (1280, 720) ∧
    (getScreenshot c7Backend none).data ≠
      some (.dims (specPipelineOutputDims 1920 1080).1
        (specPipelineOutputDims 1920 1080).2) := by
  have hspec : specPipelineOutputDims 1920 1080 = (1280, 720) := by
    unfold specPipelineOutputDims
    rw [if_pos (by norm_num)]
    have h720 : ((1080 : Int) : ℚ) * 1280 / ((1920 : Int) : ℚ) = ((720 : ℤ) : ℚ) := by
      norm_num
    rw [h720, round_intCast]
  refine ⟨rfl, rfl, hspec, ?_⟩
  rw [hspec]
  decide

/-- C7 amended: a successful region capture reports the requested region
dimensions on both the normal and the fallback path, regardless of the
dimensions the raw capture reports; a successful full-screen call reports
the raw capture dimensions on the normal path, and the uniformly scaled
dimensions only on the degraded fallback path. -/
theorem c7_amended_region_vs_fullscreen_dims (be : ScreenshotBackend)
    (options : Option ScreenshotOpts) (r : Region) (cap : CaptureResult)
    (himp : be.sharpImport = .ok ())
    (hreg : regionOf options = some r)
    (hcap : be.captureRegion r = .ok cap) :
    (getScreenshot be options).success = true ∧
    (getScreenshot be options).data = some (.dims r.width r.height) ∧
    (∀ (be2 : ScreenshotBackend) (opts2 : Option ScreenshotOpts) (cap2 : CaptureResult)
      (out : List Nat),
      regionOf opts2 = none → be2.sharpImport = .ok () → be2.captureFull = .ok cap2 →
      be2.sharpOutput cap2.data = .ok out →
      (getScreenshot be2 opts2).data = some (.dims cap2.width cap2.height)) ∧
    (∀ (be2 : ScreenshotBackend) (opts2 : Option ScreenshotOpts) (cap2 : CaptureResult)
      (e2 : String),
      regionOf opts2 = none → be2.sharpImport = .ok () → be2.captureFull = .ok cap2 →
      be2.sharpOutput cap2.data = .error e2 →
      (getScreenshot be2 opts2).data =
        some (.dims (fallbackScaledDims cap2.width cap2.height).1
          (fallbackScaledDims cap2.width cap2.height).2)) := by
  refine ⟨?_, ?_, ?_, ?_⟩
  · cases hsh : be.sharpOutput cap.data with
    | ok out => simp only [getScreenshot, himp, hreg, hcap, hsh]
    | error e2 => simp only [getScreenshot, himp, hreg, hcap, hsh]
  · cases hsh : be.sharpOutput cap.data with
    | ok out => simp only [getScreenshot, himp, hreg, hcap, hsh]
    | error e2 => simp only [getScreenshot, himp, hreg, hcap, hsh]
  · intro be2 opts2 cap2 out hreg2 himp2 hcap2 hsh2
    simp only [getScreenshot, himp2, hreg2, hcap2, hsh2]
  · intro be2 opts2 cap2 e2 hreg2 himp2 hcap2 hsh2
    simp only [getScreenshot, himp2, hreg2, hcap2, hsh2]

theorem c7_witness :
    (getScreenshot c7Backend (some { region := some ⟨100, 200, 300, 400⟩ })).success = true ∧
    (getScreenshot c7Backend (some { region := some ⟨100, 200, 300, 400⟩ })).data =
      some (.dims 300 400) ∧
    (∀ (be2 : ScreenshotBackend) (opts2 : Option ScreenshotOpts) (cap2 : CaptureResult)
      (out : List Nat),
      regionOf opts2 = none → be2.sharpImport = .ok () → be2.captureFull = .ok cap2 →
      be2.sharpOutput cap2.data = .ok out →
      (getScreenshot be2 opts2).data = some (.dims cap2.width cap2.height)) ∧
    (∀ (be2 : ScreenshotBackend) (opts2 : Option ScreenshotOpts) (cap2 : CaptureResult)
      (e2 : String),
      regionOf opts2 = none → be2.sharpImport = .ok () → be2.captureFull = .ok cap2 →
      be2.sharpOutput cap2.data = .error e2 →
      (getScreenshot be2 opts2).data =
        some (.dims (fallbackScaledDims cap2.width cap2.height).1
          (fallbackScaledDims cap2.width cap2.height).2)) :=
  c7_amended_region_vs_fullscreen_dims c7Backend
    (some { region := some ⟨100, 200, 300, 400⟩ }) ⟨100, 200, 300, 400⟩
    ⟨[1, 2, 3], 301, 401⟩ rfl rfl rfl

/-! ### C8: envelope invariant -/

/-- The §3 envelope invariant: a failure envelope carries no data. -/
def failImpliesNoData (r : WCResponse) : Prop :=
  r.success = false → r.data = none

/-- Modelled from the spec: the concrete provider capability
implementations the mouse wrappers delegate to live outside src/, and the
spec requires every capability operation to return a §3-conformant
envelope; this predicate states that conformance for the envelopes a
mouse backend returns without throwing. -/
def mouseBackendConformant (be : MouseBackend) : Prop :=
  (∀ p r, be.moveMouse p = .ok r → failImpliesNoData r) ∧
  (∀ b r, be.clickMouse b = .ok r → failImpliesNoData r) ∧
  (∀ p r, be.doubleClick p = .ok r → failImpliesNoData r) ∧
  (∀ a r, be.scrollMouse a = .ok r → failImpliesNoData r) ∧
  (∀ p q b r, be.dragMouse p q b = .ok r → failImpliesNoData r) ∧
  (∀ x y b r, be.clickAtCall x y b = .ok r → failImpliesNoData r)

theorem moveMouse_envelope (be : MouseBackend) (hc : mouseBackendConformant be)
    (env : Bool) (p : JsPos) : failImpliesNoData (moveMouse be env p).1 := by
  unfold moveMouse
  cases hv : validateMousePosition p env with
  | error e => intro _; rfl
  | ok u =>
      cases u
      cases hm : be.moveMouse p with
      | ok r => exact hc.1 p r hm
      | error e => intro _; rfl

theorem clickMouse_envelope (be : MouseBackend) (hc : mouseBackendConformant be)
    (button : String) : failImpliesNoData (clickMouse be button).1 := by
  unfold clickMouse
  split
  · intro _; rfl
  · split
    · next r hm => exact hc.2.1 _ r hm
    · intro _; rfl

theorem doubleClick_envelope (be : MouseBackend) (hc : mouseBackendConformant be)
    (env : Bool) (pos : Option JsPos) : failImpliesNoData (doubleClick be env pos).1 := by
  unfold doubleClick
  split
  · split
    · intro _; rfl
    · split
      · next r hm => exact hc.2.2.1 _ r hm
      · intro _; rfl
  · split
    · next r hm => exact hc.2.2.1 none r hm
    · intro _; rfl

theorem scrollMouse_envelope (be : MouseBackend) (hc : mouseBackendConformant be)
    (amount : JsNum) : failImpliesNoData (scrollMouse be amount).1 := by
  unfold scrollMouse
  cases amount with
  | nan => intro _; rfl
  | val a =>
      by_cases hbig : a.natAbs > 1000
      · simp only [hbig, if_true]
        intro _; rfl
      · simp only [hbig, if_false]
        cases hm : be.scrollMouse (.val a) with
        | ok r => exact hc.2.2.2.1 (.val a) r hm
        | error e => intro _; rfl

theorem dragMouse_envelope (be : MouseBackend) (hc : mouseBackendConformant be)
    (env : Bool) (p q : JsPos) (button : String) :
    failImpliesNoData (dragMouse be env p q button).1 := by
  unfold dragMouse
  split
  · intro _; rfl
  · split
    · intro _; rfl
    · split
      · intro _; rfl
      · split
        · next r hm => exact hc.2.2.2.2.1 p q _ r hm
        · intro _; rfl

theorem clickAt_envelope (be : MouseBackend) (hc : mouseBackendConformant be)
    (env : Bool) (x y : JsNum) (button : String) :
    failImpliesNoData (clickAt be env x y button).1 := by
  unfold clickAt
  split
  · intro _; rfl
  · split
    · intro _; rfl
    · split
      · intro _; rfl
      · split
        · next r hm => exact hc.2.2.2.2.2 x y _ r hm
        · intro _; rfl

theorem getScreenSize_envelope (m : Int → Except String Int) :
    failImpliesNoData (getScreenSize m) := by
  unfold getScreenSize
  cases h0 : m 0 with
  | error e => intro _; rfl
  | ok w =>
      cases h1 : m 1 with
      | error e => intro _; rfl
      | ok h =>
          by_cases hz : (w = 0 || h = 0) = true
          · simp only [hz, if_true]
            intro _; rfl
          · simp only [hz, Bool.false_eq_true, if_false]
            intro hfail
            cases hfail

theorem getActiveWindow_envelope (be : ScreenBackend) :
    failImpliesNoData (getActiveWindow be) := by
  unfold getActiveWindow
  cases h : findSuitableWindow be none with
  | none => intro hfail; cases hfail
  | some wv => cases wv; intro hfail; cases hfail

theorem focusWindow_envelope (be : ScreenBackend) (title : String) :
    failImpliesNoData (focusWindow be title) := by
  unfold focusWindow
  cases h : findSuitableWindow be (some title) with
  | some wv => cases wv; intro hfail; cases hfail
  | none =>
      by_cases hu : title = "Unknown"
      · simp only [hu, if_true]
        cases h2 : findSuitableWindow be none with
        | none => intro _; rfl
        | some wv =>
            cases wv
            cases hsw : be.setWorkwindow with
            | some u => intro hfail; cases hfail
            | none => intro _; rfl
      · simp only [hu, if_false]
        intro _; rfl

theorem updateWindowPosition_envelope (be : ScreenBackend) (title : String)
    (xo yo wo ho : Option Int) (op : OpType) :
    failImpliesNoData (updateWindowPosition be title xo yo wo ho op) := by
  unfold updateWindowPosition
  by_cases hf : (!(focusWindow be title).success) = true
  · simp only [hf, if_true]
    exact focusWindow_envelope be title
  · simp only [hf, Bool.false_eq_true, if_false]
    intro hfail
    cases hfail

theorem resizeWindow_envelope (be : ScreenBackend) (title : String) (w h : Int) :
    failImpliesNoData (resizeWindow be title w h) := by
  intro hfail
  cases hfail

theorem repositionWindow_envelope (be : ScreenBackend) (title : String) (x y : Int) :
    failImpliesNoData (repositionWindow be title x y) := by
  intro hfail
  cases hfail

theorem getScreenshot_envelope (be : ScreenshotBackend) (opts : Option ScreenshotOpts) :
    failImpliesNoData (getScreenshot be opts) := by
  intro hfail
  cases himp : be.sharpImport with
  | error e => simp only [getScreenshot, himp]
  | ok u =>
      cases u
      cases hcap : (match regionOf opts with
          | some r => be.captureRegion r
          | none => be.captureFull) with
      | error e => simp only [getScreenshot, himp, hcap]
      | ok cap =>
          exfalso
          cases hsh : be.sharpOutput cap.data with
          | ok out =>
              have hsucc : (getScreenshot be opts).success = true := by
                simp only [getScreenshot, himp, hcap, hsh]
              rw [hfail] at hsucc
              cases hsucc
          | error e =>
              have hsucc : (getScreenshot be opts).success = true := by
                simp only [getScreenshot, himp, hcap, hsh]
              rw [hfail] at hsucc
              cases hsucc

/-- C8: over every embedded operation (the mouse wrappers under the
spec-modelled assumption that the out-of-src provider implementations
return conformant envelopes, and the screen, screenshot and handler
operations unconditionally), a failure envelope never carries data; and
on the representative catch paths a thrown upstream error has its text
embedded in the failure message.  Every embedded operation is a total
function into the envelope type, which is the shallow rendering of the
no-exception-escapes propagation policy. -/
theorem c8_envelope_invariant
    (mbe : MouseBackend) (hconf : mouseBackendConformant mbe) (env : Bool)
    (p q : JsPos) (pos : Option JsPos) (button : String) (amount : JsNum)
    (sbe : ScreenBackend) (title : String) (x y w h : Int)
    (metrics : Int → Except String Int)
    (shbe : ScreenshotBackend) (opts : Option ScreenshotOpts)
    (xo yo wo ho : Option Int) (op : OpType) :
    failImpliesNoData (moveMouse mbe env p).1 ∧
    failImpliesNoData (clickMouse mbe button).1 ∧
    failImpliesNoData (doubleClick mbe env pos).1 ∧
    failImpliesNoData (scrollMouse mbe amount).1 ∧
    failImpliesNoData (dragMouse mbe env p q button).1 ∧
    failImpliesNoData (clickAt mbe env p.x p.y button).1 ∧
    failImpliesNoData (getScreenSize metrics) ∧
    failImpliesNoData (getActiveWindow sbe) ∧
    failImpliesNoData (focusWindow sbe title) ∧
    failImpliesNoData (updateWindowPosition sbe title xo yo wo ho op) ∧
    failImpliesNoData (resizeWindow sbe title w h) ∧
    failImpliesNoData (repositionWindow sbe title x y) ∧
    failImpliesNoData (getScreenshot shbe opts) ∧
    failImpliesNoData (handleMinimizeWindow sbe title).1 ∧
    failImpliesNoData (handleRestoreWindow sbe title).1 ∧
    (∀ e2, validateMousePosition p env = .ok () → mbe.moveMouse p = .error e2 →
      strContains (moveMouse mbe env p).1.message e2 = true) ∧
    (∀ e2, metrics 0 = .error e2 →
      strContains (getScreenSize metrics).message e2 = true) ∧
    (∀ e2, shbe.sharpImport = .ok () → regionOf opts = none →
      shbe.captureFull = .error e2 →
      strContains (getScreenshot shbe opts).message e2 = true) := by
  refine ⟨moveMouse_envelope mbe hconf env p, clickMouse_envelope mbe hconf button,
    doubleClick_envelope mbe hconf env pos, scrollMouse_envelope mbe hconf amount,
    dragMouse_envelope mbe hconf env p q button,
    clickAt_envelope mbe hconf env p.x p.y button,
    getScreenSize_envelope metrics, getActiveWindow_envelope sbe,
    focusWindow_envelope sbe title,
    updateWindowPosition_envelope sbe title xo yo wo ho op,
    resizeWindow_envelope sbe title w h, repositionWindow_envelope sbe title x y,
    getScreenshot_envelope shbe opts,
    (fun hfail => rfl), (fun hfail => rfl), ?_, ?_, ?_⟩
  · intro e2 hv hm
    have : (moveMouse mbe env p).1.message = "Failed to move mouse: " ++ e2 := by
      unfold moveMouse
      rw [hv, hm]
    rw [this]
    exact strContains_append _ _
  · intro e2 hm
    have : (getScreenSize metrics).message =
        "Failed to get screen size using koffi: " ++ e2 := by
      unfold getScreenSize
      rw [hm]
    rw [this]
    exact strContains_append _ _
  · intro e2 himp hreg hcap
    have : (getScreenshot shbe opts).message = "Failed to capture screenshot: " ++ e2 := by
      simp only [getScreenshot, himp, hreg, hcap]
    rw [this]
    exact strContains_append _ _

/-- C8 witness mouse backend: every provider call returns a fixed
conformant success envelope. -/
def c8MouseBackend : MouseBackend :=
  { moveMouse := fun _ => .ok { success := true, message := "Mouse moved" },
    clickMouse := fun _ => .ok { success := true, message := "Mouse clicked" },
    doubleClick := fun _ => .ok { success := true, message := "Mouse double clicked" },
    scrollMouse := fun _ => .ok { success := true, message := "Mouse scrolled" },
    dragMouse := fun _ _ _ => .ok { success := true, message := "Mouse dragged" },
    clickAtCall := fun _ _ _ => .ok { success := true, message := "Mouse clicked at" } }

theorem c8MouseBackend_conformant : mouseBackendConformant c8MouseBackend := by
  refine ⟨?_, ?_, ?_, ?_, ?_, ?_⟩
  · intro p r hr; cases hr; intro hfail; cases hfail
  · intro b r hr; cases hr; intro hfail; cases hfail
  · intro p r hr; cases hr; intro hfail; cases hfail
  · intro a r hr; cases hr; intro hfail; cases hfail
  · intro p q b r hr; cases hr; intro hfail; cases hfail
  · intro x y b r hr; cases hr; intro hfail; cases hfail

/-- C8 witness screen backend: empty enumeration, every native call
throwing. -/
def c8ScreenBackend : ScreenBackend :=
  { getAllWindows := some [],
    getViewByHandle := fun _ => none,
    setWorkwindow := none,
    setForegroundResult := none,
    isForegroundResult := none,
    isOpenResult := none,
    childWindows := fun _ => none,
    viewBeforeUpdate := none,
    setViewResult := none,
    viewAfterUpdate := none }

/-- C8 witness screenshot backend: the sharp import throws. -/
def c8ShotBackend : ScreenshotBackend :=
  { sharpImport := .error "Cannot find module sharp",
    captureFull := .ok ⟨[1, 2, 3], 1920, 1080⟩,
    captureRegion := fun _ => .ok ⟨[1, 2, 3], 300, 400⟩,
    sharpOutput := fun _ => .ok [9, 9] }

theorem c8_witness :
    failImpliesNoData (moveMouse c8MouseBackend false ⟨.val 1, .val 2⟩).1 ∧
    failImpliesNoData (clickMouse c8MouseBackend "left").1 ∧
    failImpliesNoData (doubleClick c8MouseBackend false none).1 ∧
    failImpliesNoData (scrollMouse c8MouseBackend (.val 5)).1 ∧
    failImpliesNoData
      (dragMouse c8MouseBackend false ⟨.val 1, .val 2⟩ ⟨.val 3, .val 4⟩ "left").1 ∧
    failImpliesNoData
      (clickAt c8MouseBackend false (JsPos.mk (.val 1) (.val 2)).x
        (JsPos.mk (.val 1) (.val 2)).y "left").1 ∧
    failImpliesNoData (getScreenSize (fun _ => .ok 1920)) ∧
    failImpliesNoData (getActiveWindow c8ScreenBackend) ∧
    failImpliesNoData (focusWindow c8ScreenBackend "Target Window") ∧
    failImpliesNoData
      (updateWindowPosition c8ScreenBackend "Target Window" none none (some 10) (some 10)
        .resize) ∧
    failImpliesNoData (resizeWindow c8ScreenBackend "Target Window" 10 10) ∧
    failImpliesNoData (repositionWindow c8ScreenBackend "Target Window" 10 10) ∧
    failImpliesNoData (getScreenshot c8ShotBackend none) ∧
    failImpliesNoData (handleMinimizeWindow c8ScreenBackend "Target Window").1 ∧
    failImpliesNoData (handleRestoreWindow c8ScreenBackend "Target Window").1 ∧
    (∀ e2, validateMousePosition ⟨.val 1, .val 2⟩ false = .ok () →
      c8MouseBackend.moveMouse ⟨.val 1, .val 2⟩ = .error e2 →
      strContains (moveMouse c8MouseBackend false ⟨.val 1, .val 2⟩).1.message e2 = true) ∧
    (∀ e2, (fun (_ : Int) => (.ok 1920 : Except String Int)) 0 = .error e2 →
      strContains (getScreenSize (fun _ => .ok 1920)).message e2 = true) ∧
    (∀ e2, c8ShotBackend.sharpImport = .ok () →
      regionOf (none : Option ScreenshotOpts) = none →
      c8ShotBackend.captureFull = .error e2 →
      strContains (getScreenshot c8ShotBackend none).message e2 = true) :=
  c8_envelope_invariant c8MouseBackend c8MouseBackend_conformant false
    ⟨.val 1, .val 2⟩ ⟨.val 3, .val 4⟩ none "left" (.val 5)
    c8ScreenBackend "Target Window" 10 10 10 10 (fun _ => .ok 1920)
    c8ShotBackend none none none (some 10) (some 10) .resize

end MCPControl
